import Mathlib

/-!
Shallow embedding of the account-state authentication layer
(src/types/src/account_state_blob.rs) and the transaction-validation
cache (src/vm-validator/src/vm_validator.rs) of this repository.

Bytes are modelled as lists of naturals; machine hashes as naturals
produced by an executable stand-in digest.  Fallible Rust functions
returning anyhow::Result are modelled with Except; process aborts
(Rust expect / panic) are a distinct constructor of RunResult so that
a propagated error and an abort can never be confused.
-/

/-- Typed stand-in for the anyhow error values produced by the code in
vm_validator.rs and account_state_blob.rs.  The Rust code uses untyped
anyhow errors; each constructor here corresponds to one distinct error
site of the source. -/
inductive VmError where
  | storage : VmError
  | malformedState : VmError
  | accountResourceNotFound : VmError
  | crsnDecode : VmError
  | configNotFound : VmError
deriving DecidableEq, Repr

/-- Errors of the state-authentication paths: the version guard of
AccountStateWithProof::verify, proof mismatch, and the structural chunk
error of the spec. -/
inductive AuthError where
  | versionMismatch : Nat → Nat → AuthError
  | proofMismatch : AuthError
  | malformedChunk : AuthError
deriving DecidableEq, Repr

/-- The two panic messages occurring in vm_validator.rs: the
expect calls in latest_state_view carry the text Should not fail.,
and the version unwrap carries Must be bootstrapped. -/
inductive PanicMsg where
  | shouldNotFail : PanicMsg
  | mustBeBootstrapped : PanicMsg
deriving DecidableEq, Repr

/-- Outcome of running a Rust computation that may return a value,
return an error, or abort the process via expect / panic. -/
inductive RunResult (α : Type) where
  | ok : α → RunResult α
  | err : VmError → RunResult α
  | panicked : PanicMsg → RunResult α
deriving DecidableEq, Repr

/-- Modelled from the spec: executable stand-in for the 256-bit content
digest (AccountStateBlobHasher, which lives in aptos-crypto, outside
src/).  All that the claims use is that it is a fixed function of the
input bytes. -/
def hashBytes (bytes : List Nat) : Nat :=
  bytes.foldl (fun h b => h * 1031 + b + 1) 17

/-- Modelled from the spec: stand-in for hashing an account address into
its sparse-Merkle lookup key (HashAccountAddress, outside src/). -/
def hashAddress (a : Nat) : Nat :=
  hashBytes [a]

/-- Modelled from the spec: stand-in for the leaf-node digest of the
sparse Merkle tree. -/
def hashLeaf (key valueHash : Nat) : Nat :=
  hashBytes [0, key, valueHash]

/-- Modelled from the spec: stand-in for the internal-node digest of the
sparse Merkle tree. -/
def hashInternal (l r : Nat) : Nat :=
  hashBytes [1, l, r]

/-- Modelled from the spec: stand-in for the placeholder digest marking
an absent leaf. -/
def absentMarker : Nat := 0

/-- AccountStateBlob (account_state_blob.rs lines 25-30): the raw byte
payload together with its content hash. -/
structure AccountStateBlob where
  blob : List Nat
  hash : Nat
deriving DecidableEq, Repr

/-- AccountStateBlob::new (account_state_blob.rs lines 48-55): hashes the
bytes once and stores blob and hash together. -/
def AccountStateBlob.new (blob : List Nat) : AccountStateBlob :=
  { blob := blob, hash := hashBytes blob }

/-- The CryptoHash::hash accessor (account_state_blob.rs lines 153-159):
it returns the stored field and performs no recomputation. -/
def AccountStateBlob.cryptoHash (b : AccountStateBlob) : Nat :=
  b.hash

/-- Length-prefixed encoding of one byte chunk; the building block of the
canonical codec stand-in. -/
def encodeChunk (l : List Nat) : List Nat :=
  l.length :: l

/-- Decoder matching encodeChunk: reads a length then that many bytes,
returning the chunk and the unconsumed remainder. -/
def decodeChunk : List Nat → Option (List Nat × List Nat)
  | [] => none
  | n :: rest =>
    if n ≤ rest.length then some (rest.take n, rest.drop n) else none

/-- Modelled from the spec: AccountState (account_state.rs, outside
src/), a mapping from resource-path keys to raw resource byte
payloads. -/
structure AccountState where
  resources : List (List Nat × List Nat)
deriving DecidableEq, Repr

/-- Canonical encoding of one resource entry: length-prefixed path then
length-prefixed payload. -/
def encodeEntry (e : List Nat × List Nat) : List Nat :=
  encodeChunk e.1 ++ encodeChunk e.2

/-- Modelled from the spec: the canonical codec encoding of an account
state (bcs::to_bytes, outside src/): an entry count followed by the
encoded entries. -/
def encodeAccountState (s : AccountState) : List Nat :=
  s.resources.length :: (s.resources.map encodeEntry).flatten

/-- Decodes a fixed number of resource entries, returning them together
with the unconsumed remainder. -/
def decodeEntries : Nat → List Nat → Option (List (List Nat × List Nat) × List Nat)
  | 0, bytes => some ([], bytes)
  | n + 1, bytes =>
    match decodeChunk bytes with
    | none => none
    | some (k, r1) =>
      match decodeChunk r1 with
      | none => none
      | some (v, r2) =>
        match decodeEntries n r2 with
        | none => none
        | some (es, r3) => some ((k, v) :: es, r3)

/-- Modelled from the spec: the canonical codec decoding of an account
state (bcs::from_bytes, outside src/); fails on any input that is not a
complete valid encoding. -/
def decodeAccountState (bytes : List Nat) : Option AccountState :=
  match bytes with
  | [] => none
  | n :: rest =>
    match decodeEntries n rest with
    | some (es, []) => some { resources := es }
    | _ => none

/-- Modelled from the spec: the stored account resource (outside src/);
the only field the validator reads is the sequence counter. -/
structure AccountResource where
  sequence_number : Nat
deriving DecidableEq, Repr

/-- Modelled from the spec: the windowed-nonce (CRSN) resource (outside
src/), carrying a minimum nonce and a window size. -/
structure CRSNResource where
  min_nonce : Nat
  size : Nat
deriving DecidableEq, Repr

/-- Resource path under which the account resource is stored. -/
def accountResourcePath : List Nat := [0]

/-- Resource path under which the CRSN resource is stored. -/
def crsnResourcePath : List Nat := [1]

/-- Decoder for the raw bytes of an account resource. -/
def decodeAccountResource : List Nat → Option AccountResource
  | [n] => some { sequence_number := n }
  | _ => none

/-- Decoder for the raw bytes of a CRSN resource. -/
def decodeCRSN : List Nat → Option CRSNResource
  | [m, s] => some { min_nonce := m, size := s }
  | _ => none

/-- Modelled from the spec: AccountState::get_crsn_resource (outside
src/).  Returns ok none when the resource path is absent, ok some when
its bytes decode, and a decode error when the resource is present but
its bytes are corrupt; the Rust signature is Result of Option. -/
def AccountState.get_crsn_resource (s : AccountState) : Except VmError (Option CRSNResource) :=
  match s.resources.lookup crsnResourcePath with
  | none => Except.ok none
  | some bytes =>
    match decodeCRSN bytes with
    | some c => Except.ok (some c)
    | none => Except.error VmError.crsnDecode

/-- Modelled from the spec: AccountState::get_account_resource (outside
src/), with the same present / absent / corrupt trichotomy. -/
def AccountState.get_account_resource (s : AccountState) : Except VmError (Option AccountResource) :=
  match s.resources.lookup accountResourcePath with
  | none => Except.ok none
  | some bytes =>
    match decodeAccountResource bytes with
    | some r => Except.ok (some r)
    | none => Except.error VmError.malformedState

/-- TryFrom for AccountState from a blob (account_state_blob.rs lines
107-113): bcs decoding of the blob bytes, decode failure returned as an
error. -/
def AccountState.tryFromBlob (b : AccountStateBlob) : Except VmError AccountState :=
  match decodeAccountState b.blob with
  | some s => Except.ok s
  | none => Except.error VmError.malformedState

/-- TryFrom for AccountResource from a blob (account_state_blob.rs lines
143-151): decode the account state, look up the account resource, and
turn absence into an error. -/
def AccountResource.tryFromBlob (b : AccountStateBlob) : Except VmError AccountResource :=
  match AccountState.tryFromBlob b with
  | Except.error e => Except.error e
  | Except.ok s =>
    match s.get_account_resource with
    | Except.error e => Except.error e
    | Except.ok none => Except.error VmError.accountResourceNotFound
    | Except.ok (some r) => Except.ok r

/-- TryFrom for AccountStateBlob from an account state
(account_state_blob.rs lines 99-105): canonical encoding followed by
AccountStateBlob::new.  The bcs serializer cannot fail on this data
model, so the Rust Result is always ok and the model is total. -/
def AccountStateBlob.fromState (s : AccountState) : AccountStateBlob :=
  AccountStateBlob.new (encodeAccountState s)

/-- The serde serialization of a blob (account_state_blob.rs lines
25-30): the hash field carries serde skip, so only the bytes are
written. -/
def AccountStateBlob.serialize (b : AccountStateBlob) : List Nat :=
  encodeChunk b.blob

/-- The manual Deserialize impl (account_state_blob.rs lines 32-46):
reads only the raw bytes and rebuilds the blob through
AccountStateBlob::new, so the hash is always recomputed. -/
def AccountStateBlob.deserialize (input : List Nat) : Option (AccountStateBlob × List Nat) :=
  match decodeChunk input with
  | none => none
  | some (bytes, rest) => some (AccountStateBlob.new bytes, rest)

/-- The decoded component of the Debug rendering: either the decoded
account state or the fallback label (the string fail in the source). -/
inductive DebugRendering where
  | decoded : AccountState → DebugRendering
  | fallback : DebugRendering
deriving DecidableEq, Repr

/-- The full Debug rendering (account_state_blob.rs lines 57-73): the
raw bytes rendered in hex together with the decoded component. -/
structure DebugOutput where
  raw : List Nat
  decoded : DebugRendering
deriving DecidableEq, Repr

/-- fmt::Debug for AccountStateBlob (account_state_blob.rs lines 57-73):
attempts a decode of the bytes, uses the fallback label on failure via
unwrap_or_else, and always returns a rendering; it is a total function
and can neither propagate the decode error nor panic. -/
def AccountStateBlob.debugFmt (b : AccountStateBlob) : DebugOutput :=
  { raw := b.blob
    decoded :=
      match decodeAccountState b.blob with
      | some st => DebugRendering.decoded st
      | none => DebugRendering.fallback }

/-- The signed ledger checkpoint consumed by verification (LedgerInfo,
outside src/): the claims only use its root lookup per version. -/
structure LedgerInfo where
  version : Nat
  rootHash : Nat
deriving DecidableEq, Repr

/-- Modelled from the spec: the checkpoint root that proofs at a given
version are checked against. -/
def LedgerInfo.rootFor (li : LedgerInfo) (_version : Nat) : Nat :=
  li.rootHash

/-- Modelled from the spec: the inclusion / absence proof
(AccountStateProof, outside src/): a sparse-Merkle path of sibling
digests, each tagged with its side. -/
structure AccountStateProof where
  siblings : List (Bool × Nat)
deriving DecidableEq, Repr

/-- Modelled from the spec: AccountStateProof::verify (outside src/):
reconstructs the root from the claimed blob hash (or from the absence
marker) along the sibling path and compares it with the checkpoint root
for the requested version; mismatch is ProofMismatch. -/
def AccountStateProof.verify (p : AccountStateProof) (li : LedgerInfo) (version : Nat)
    (key : Nat) (blob : Option AccountStateBlob) : Except AuthError Unit :=
  let leafHash :=
    match blob with
    | some b => hashLeaf key b.hash
    | none => absentMarker
  let root := p.siblings.foldl
    (fun acc sib => if sib.1 then hashInternal sib.2 acc else hashInternal acc sib.2) leafHash
  if root = li.rootFor version then Except.ok () else Except.error AuthError.proofMismatch

/-- AccountStateWithProof (account_state_blob.rs lines 178-188): version,
optional blob (absence meaning the account does not exist) and the
proof. -/
structure AccountStateWithProof where
  version : Nat
  blob : Option AccountStateBlob
  proof : AccountStateProof
deriving DecidableEq, Repr

/-- AccountStateWithProof::verify (account_state_blob.rs lines 207-222):
the ensure guard on the carried version runs first; only when it passes
is the proof checked against the hash of the address and the blob. -/
def AccountStateWithProof.verify (s : AccountStateWithProof) (li : LedgerInfo)
    (version : Nat) (address : Nat) : Except AuthError Unit :=
  if s.version = version then
    s.proof.verify li version (hashAddress address) s.blob
  else
    Except.error (AuthError.versionMismatch s.version version)

/-- Modelled from the spec: the sparse-Merkle range proof (outside
src/); the claims only use that it is an input to the cryptographic
phase of chunk verification. -/
structure SparseMerkleRangeProof where
  right_siblings : List Nat
deriving DecidableEq, Repr

/-- AccountStatesChunkWithProof (account_state_blob.rs lines 231-244):
boundary indices, boundary keys, the ordered account blobs and the
range proof. -/
structure AccountStatesChunkWithProof where
  first_index : Nat
  last_index : Nat
  first_key : Nat
  last_key : Nat
  account_blobs : List (Nat × AccountStateBlob)
  proof : SparseMerkleRangeProof
deriving DecidableEq, Repr

/-- Strict ascending order of a key sequence. -/
def strictAscending : List Nat → Bool
  | [] => true
  | [_] => true
  | a :: b :: rest => decide (a < b) && strictAscending (b :: rest)

/-- Modelled from the spec: the structural invariants of a chunk:
entries sorted strictly ascending by key, boundary keys equal to the
keys of the first and last entries, and the index arithmetic
last_index - first_index + 1 equal to the number of entries.  The
index fields are u64 in the source, so the subtraction is taken over
the integers: an inverted index pair makes the left side negative and
the invariant fail, rather than truncating to a passing value. -/
def chunkWellFormed (c : AccountStatesChunkWithProof) : Bool :=
  strictAscending (c.account_blobs.map Prod.fst) &&
  (c.account_blobs.head?.map Prod.fst == some c.first_key) &&
  (c.account_blobs.getLast?.map Prod.fst == some c.last_key) &&
  ((c.last_index : Int) - (c.first_index : Int) + 1 == (c.account_blobs.length : Int))

/-- Modelled from the spec: the root reconstructed by the range-proof
phase from the entry keys, the blob hashes and the proof siblings. -/
def chunkRangeRoot (c : AccountStatesChunkWithProof) : Nat :=
  c.proof.right_siblings.foldl hashInternal
    (c.account_blobs.foldl (fun acc e => hashInternal acc (hashLeaf e.1 e.2.hash)) absentMarker)

/-- Modelled from the spec: ChunkAuthenticator::verify.  The source
declares AccountStatesChunkWithProof but leaves verification as a TODO
(account_state_blob.rs lines 225-230), so this follows the spec: the
structural invariants are checked first and any violation is
MalformedChunk; only a well-formed chunk reaches the cryptographic
range-proof comparison, whose failure is ProofMismatch. -/
def AccountStatesChunkWithProof.verify (c : AccountStatesChunkWithProof)
    (li : LedgerInfo) (version : Nat) : Except AuthError Unit :=
  if chunkWellFormed c then
    if chunkRangeRoot c = li.rootFor version then Except.ok ()
    else Except.error AuthError.proofMismatch
  else
    Except.error AuthError.malformedChunk

/-- Account addresses, modelled as naturals. -/
abbrev AccountAddress : Type := Nat

/-- The latest committed tree state returned by the storage reader
(outside src/): a version and a root digest. -/
structure TreeState where
  version : Nat
  rootHash : Nat
deriving DecidableEq, Repr

/-- Modelled from the spec: the ledger view produced by into_ledger_view
(executor crate, outside src/); its version is optional because a
non-bootstrapped database has none, which the source unwraps with
expect Must be bootstrapped. -/
structure LedgerView where
  version : Option Nat
  rootHash : Nat
deriving DecidableEq, Repr

/-- The CachedView of the spec (VerifiedStateView, outside src/): an
immutable snapshot pinned at a base version. -/
structure VerifiedStateView where
  base_version : Nat
  rootHash : Nat
deriving DecidableEq, Repr

/-- The external storage reader (DbReader trait, outside src/): each
operation may fail with a storage error.  into_ledger_view also reads
from the database, so it is modelled as a fallible operation of the
reader. -/
structure DbReader where
  get_latest_tree_state : Except VmError TreeState
  into_ledger_view : TreeState → Except VmError LedgerView
  get_latest_account_state : AccountAddress → Except VmError (Option AccountStateBlob)

/-- latest_state_view (vm_validator.rs lines 36-50): reads the latest
tree state and turns it into a ledger view, unwrapping each storage
failure with expect Should not fail. (a panic, not a returned error),
then unwraps the version with expect Must be bootstrapped. and builds
the snapshot. -/
def latest_state_view (db_reader : DbReader) : RunResult VerifiedStateView :=
  match db_reader.get_latest_tree_state with
  | Except.error _ => RunResult.panicked PanicMsg.shouldNotFail
  | Except.ok ts =>
    match db_reader.into_ledger_view ts with
    | Except.error _ => RunResult.panicked PanicMsg.shouldNotFail
    | Except.ok lv =>
      match lv.version with
      | none => RunResult.panicked PanicMsg.mustBeBootstrapped
      | some v => RunResult.ok { base_version := v, rootHash := lv.rootHash }

/-- Modelled from the spec: the VM oracle (AptosVM, outside src/),
tracked by how it was built: from a state view for validation, or from
an on-chain configuration. -/
inductive AptosVM where
  | for_validation : VerifiedStateView → AptosVM
  | with_config : Nat → Nat → Nat → AptosVM
deriving DecidableEq, Repr

/-- AptosVM::new_for_validation (outside src/). -/
def AptosVM.new_for_validation (sv : VerifiedStateView) : AptosVM :=
  AptosVM.for_validation sv

/-- AptosVM::init_with_config (outside src/): built from the on-chain
version, VM config and publishing policy. -/
def AptosVM.init_with_config (version vmCfg publishing : Nat) : AptosVM :=
  AptosVM.with_config version vmCfg publishing

/-- The on-chain configuration payload passed to restart (outside
src/): each config.get call can fail, modelled by optional fields. -/
structure OnChainConfigPayload where
  vmCfg : Option Nat
  aptosVersion : Option Nat
  publishingPolicy : Option Nat

/-- VMValidator (vm_validator.rs lines 52-56): the reader handle, the
cached snapshot and the VM oracle. -/
structure VMValidator where
  db_reader : DbReader
  cached_state_view : VerifiedStateView
  vm : AptosVM

/-- VMValidator::new (vm_validator.rs lines 64-75): builds a fresh
snapshot from the reader and a VM for validation over it; a storage
failure inside latest_state_view propagates as the panic it is. -/
def VMValidator.new (db_reader : DbReader) : RunResult VMValidator :=
  match latest_state_view db_reader with
  | RunResult.panicked m => RunResult.panicked m
  | RunResult.err e => RunResult.err e
  | RunResult.ok sv =>
    RunResult.ok
      { db_reader := db_reader
        cached_state_view := sv
        vm := AptosVM.new_for_validation sv }

/-- Clone for VMValidator (vm_validator.rs lines 58-62): a clone is a
fresh construction against the same reader; nothing of the cached view
or the VM is reused. -/
def VMValidator.clone (v : VMValidator) : RunResult VMValidator :=
  VMValidator.new v.db_reader

/-- notify_commit (vm_validator.rs lines 101-103): unconditionally
replaces the cached snapshot with one rebuilt from the reader, leaving
the reader handle and the VM unchanged. -/
def VMValidator.notify_commit (v : VMValidator) : RunResult VMValidator :=
  match latest_state_view v.db_reader with
  | RunResult.panicked m => RunResult.panicked m
  | RunResult.err e => RunResult.err e
  | RunResult.ok sv => RunResult.ok { v with cached_state_view := sv }

/-- restart (vm_validator.rs lines 91-99): first the notify_commit
refresh, then the three config reads, then the VM oracle is replaced by
one built from the new configuration. -/
def VMValidator.restart (v : VMValidator) (config : OnChainConfigPayload) : RunResult VMValidator :=
  match v.notify_commit with
  | RunResult.panicked m => RunResult.panicked m
  | RunResult.err e => RunResult.err e
  | RunResult.ok v1 =>
    match config.vmCfg with
    | none => RunResult.err VmError.configNotFound
    | some vmCfg =>
      match config.aptosVersion with
      | none => RunResult.err VmError.configNotFound
      | some version =>
        match config.publishingPolicy with
        | none => RunResult.err VmError.configNotFound
        | some publishing =>
          RunResult.ok { v1 with vm := AptosVM.init_with_config version vmCfg publishing }

/-- AccountSequenceInfo (outside src/): the monotonic counter variant or
the windowed CRSN variant. -/
inductive AccountSequenceInfo where
  | Sequential : Nat → AccountSequenceInfo
  | CRSN : Nat → Nat → AccountSequenceInfo
deriving DecidableEq, Repr

/-- get_account_sequence_number (vm_validator.rs lines 107-129).  An
absent account yields Sequential 0; a present blob is decoded (decode
failure propagates); then the source pattern if let Ok Some crsn keeps
only the ok-and-present CRSN outcome and silently falls through on a
CRSN decode error; the fall-through re-derives the account resource
from the blob (failure propagates) and yields its counter. -/
def get_account_sequence_number (storage : DbReader) (address : AccountAddress) :
    Except VmError AccountSequenceInfo :=
  match storage.get_latest_account_state address with
  | Except.error e => Except.error e
  | Except.ok none => Except.ok (AccountSequenceInfo.Sequential 0)
  | Except.ok (some blob) =>
    match AccountState.tryFromBlob blob with
    | Except.error e => Except.error e
    | Except.ok state =>
      match state.get_crsn_resource with
      | Except.ok (some crsn) => Except.ok (AccountSequenceInfo.CRSN crsn.min_nonce crsn.size)
      | _ =>
        match AccountResource.tryFromBlob blob with
        | Except.error e => Except.error e
        | Except.ok r => Except.ok (AccountSequenceInfo.Sequential r.sequence_number)

/-- Concrete account state whose CRSN resource bytes are corrupt (three
bytes cannot decode as a CRSN resource) while the account resource is
valid with counter 42. -/
def corruptCrsnState : AccountState :=
  { resources := [([0], [42]), ([1], [5, 6, 7])] }

/-- The canonical blob of corruptCrsnState. -/
def corruptCrsnBlob : AccountStateBlob :=
  AccountStateBlob.fromState corruptCrsnState

/-- Reader serving corruptCrsnBlob for every address. -/
def corruptCrsnReader : DbReader :=
  { get_latest_tree_state := Except.ok { version := 0, rootHash := 0 }
    into_ledger_view := fun ts => Except.ok { version := some ts.version, rootHash := ts.rootHash }
    get_latest_account_state := fun _ => Except.ok (some corruptCrsnBlob) }

/-- Reader with no account state for any address. -/
def emptyAccountReader : DbReader :=
  { get_latest_tree_state := Except.ok { version := 0, rootHash := 0 }
    into_ledger_view := fun ts => Except.ok { version := some ts.version, rootHash := ts.rootHash }
    get_latest_account_state := fun _ => Except.ok none }

/-- Account state carrying a stored counter 42 and a valid CRSN
resource with minimum nonce 10 and window 8. -/
def crsnState : AccountState :=
  { resources := [([0], [42]), ([1], [10, 8])] }

/-- Reader serving the blob of crsnState for every address. -/
def crsnReader : DbReader :=
  { get_latest_tree_state := Except.ok { version := 0, rootHash := 0 }
    into_ledger_view := fun ts => Except.ok { version := some ts.version, rootHash := ts.rootHash }
    get_latest_account_state := fun _ => Except.ok (some (AccountStateBlob.fromState crsnState)) }

/-- Account state with only a stored counter 42 and no CRSN resource. -/
def seqState : AccountState :=
  { resources := [([0], [42])] }

/-- Reader serving the blob of seqState for every address. -/
def seqReader : DbReader :=
  { get_latest_tree_state := Except.ok { version := 0, rootHash := 0 }
    into_ledger_view := fun ts => Except.ok { version := some ts.version, rootHash := ts.rootHash }
    get_latest_account_state := fun _ => Except.ok (some (AccountStateBlob.fromState seqState)) }

/-- Reader whose tree-state read fails with a storage error. -/
def failingReader : DbReader :=
  { get_latest_tree_state := Except.error VmError.storage
    into_ledger_view := fun _ => Except.error VmError.storage
    get_latest_account_state := fun _ => Except.error VmError.storage }

/-- Reader whose tree-state read succeeds but whose ledger-view
construction fails with a storage error. -/
def failingLedgerViewReader : DbReader :=
  { get_latest_tree_state := Except.ok { version := 0, rootHash := 0 }
    into_ledger_view := fun _ => Except.error VmError.storage
    get_latest_account_state := fun _ => Except.ok none }

/-- A validator whose reader is failingReader. -/
def failingValidator : VMValidator :=
  { db_reader := failingReader
    cached_state_view := { base_version := 0, rootHash := 0 }
    vm := AptosVM.new_for_validation { base_version := 0, rootHash := 0 } }

/-- A healthy reader at version 5 with root 77. -/
def goodReader : DbReader :=
  { get_latest_tree_state := Except.ok { version := 5, rootHash := 77 }
    into_ledger_view := fun ts => Except.ok { version := some ts.version, rootHash := ts.rootHash }
    get_latest_account_state := fun _ => Except.ok none }

/-- The snapshot goodReader produces. -/
def goodView : VerifiedStateView :=
  { base_version := 5, rootHash := 77 }

/-- A validator freshly constructed over goodReader. -/
def goodValidator : VMValidator :=
  { db_reader := goodReader
    cached_state_view := goodView
    vm := AptosVM.new_for_validation goodView }

/-- A validator over goodReader whose cached view and VM are stale. -/
def staleValidator : VMValidator :=
  { db_reader := goodReader
    cached_state_view := { base_version := 0, rootHash := 0 }
    vm := AptosVM.init_with_config 9 9 9 }

/-- A configuration payload in which all three reads succeed. -/
def goodConfig : OnChainConfigPayload :=
  { vmCfg := some 2, aptosVersion := some 3, publishingPolicy := some 4 }

/-- A structurally malformed chunk: one entry but boundary indices
spanning six positions. -/
def badChunk : AccountStatesChunkWithProof :=
  { first_index := 0
    last_index := 5
    first_key := 1
    last_key := 1
    account_blobs := [(1, AccountStateBlob.new [7])]
    proof := { right_siblings := [] } }

/-- A chunk with inverted boundary indices: one entry with matching
boundary keys, but first_index greater than last_index, so the integer
index arithmetic yields a negative count. -/
def invertedChunk : AccountStatesChunkWithProof :=
  { first_index := 5
    last_index := 0
    first_key := 1
    last_key := 1
    account_blobs := [(1, AccountStateBlob.new [7])]
    proof := { right_siblings := [] } }

/-- C1: for every account-state-with-proof, checkpoint, requested
version and address, a carried version differing from the requested one
makes verify fail with VersionMismatch, whatever the proof contains;
the version guard runs before any proof verification. -/
theorem verify_version_gating (s : AccountStateWithProof) (li : LedgerInfo)
    (version : Nat) (address : Nat) (h : s.version ≠ version) :
    s.verify li version address =
      Except.error (AuthError.versionMismatch s.version version) := by
  simp [AccountStateWithProof.verify, h]

/-- Witness for C1 at a concrete mismatching pair of versions. -/
theorem verify_version_gating_witness :
    (3 : Nat) ≠ 4 ∧
    AccountStateWithProof.verify
        { version := 3, blob := none, proof := { siblings := [] } }
        { version := 4, rootHash := 0 } 4 9 =
      Except.error (AuthError.versionMismatch 3 4) :=
  ⟨by decide,
   verify_version_gating { version := 3, blob := none, proof := { siblings := [] } }
     { version := 4, rootHash := 0 } 4 9 (by decide)⟩

/-- C2: construction from any byte sequence succeeds and stores the hash
of those bytes; the accessor returns the stored hash of an arbitrary
blob without recomputation; and the construction path from a decoded
account state also establishes hash equal to Hash of bytes. -/
theorem blob_hash_binding (b : List Nat) (s : AccountState) (r : AccountStateBlob) :
    (AccountStateBlob.new b).hash = hashBytes b ∧
    (AccountStateBlob.new b).cryptoHash = hashBytes b ∧
    (AccountStateBlob.new b).blob = b ∧
    (AccountStateBlob.fromState s).hash = hashBytes (AccountStateBlob.fromState s).blob ∧
    r.cryptoHash = r.hash :=
  ⟨rfl, rfl, rfl, rfl, rfl⟩

/-- C9: the Debug rendering is a total function of the blob; when the
bytes do not decode it renders the fallback label, and when they decode
it renders the decoded state; in neither case is an error returned or a
panic possible. -/
theorem debug_renders_fallback (b : AccountStateBlob) :
    (decodeAccountState b.blob = none →
      b.debugFmt = { raw := b.blob, decoded := DebugRendering.fallback }) ∧
    (∀ st, decodeAccountState b.blob = some st →
      b.debugFmt = { raw := b.blob, decoded := DebugRendering.decoded st }) := by
  constructor
  · intro h
    simp [AccountStateBlob.debugFmt, h]
  · intro st h
    simp [AccountStateBlob.debugFmt, h]

/-- Witness for C9 at a concrete undecodable blob. -/
theorem debug_renders_fallback_witness :
    decodeAccountState (AccountStateBlob.new [1]).blob = none ∧
    (AccountStateBlob.new [1]).debugFmt =
      { raw := [1], decoded := DebugRendering.fallback } :=
  ⟨rfl, (debug_renders_fallback (AccountStateBlob.new [1])).1 rfl⟩

/-- C10: every successfully deserialized blob satisfies the hash
invariant because the hash is recomputed from the bytes; serialization
writes no hash material (two blobs differing only in the hash field
serialize identically); and serialize-then-deserialize returns the
original blob built from its bytes with nothing left over. -/
theorem deserialize_recomputes_hash :
    (∀ input b rest, AccountStateBlob.deserialize input = some (b, rest) →
      b.hash = hashBytes b.blob) ∧
    (∀ (blob : List Nat) (h1 h2 : Nat),
      AccountStateBlob.serialize { blob := blob, hash := h1 } =
        AccountStateBlob.serialize { blob := blob, hash := h2 }) ∧
    (∀ bytes, AccountStateBlob.deserialize
        (AccountStateBlob.serialize (AccountStateBlob.new bytes)) =
      some (AccountStateBlob.new bytes, [])) := by
  refine ⟨?_, ?_, ?_⟩
  · intro input b rest h
    unfold AccountStateBlob.deserialize at h
    cases hd : decodeChunk input with
    | none =>
      rw [hd] at h
      exact Option.noConfusion h
    | some p =>
      rw [hd] at h
      obtain ⟨bytes, r⟩ := p
      simp only [Option.some.injEq, Prod.mk.injEq] at h
      obtain ⟨hb, _⟩ := h
      subst hb
      rfl
  · intro blob h1 h2
    rfl
  · intro bytes
    simp [AccountStateBlob.serialize, AccountStateBlob.deserialize, encodeChunk,
      decodeChunk, AccountStateBlob.new]

/-- Witness for C10 at a concrete serialized input. -/
theorem deserialize_recomputes_hash_witness :
    AccountStateBlob.deserialize [2, 9, 9] = some (AccountStateBlob.new [9, 9], []) ∧
    (AccountStateBlob.new [9, 9]).hash = hashBytes [9, 9] :=
  ⟨rfl, deserialize_recomputes_hash.1 [2, 9, 9] (AccountStateBlob.new [9, 9]) [] rfl⟩

/-- Counterexample to C3 as stated: at a concrete account whose CRSN
resource bytes are corrupt, the CRSN decode error is raised by
get_crsn_resource yet sequence resolution masks it, answering with the
monotonic counter taken from the account resource instead of an
error. -/
theorem seq_resolution_masks_crsn_error :
    AccountState.tryFromBlob corruptCrsnBlob = Except.ok corruptCrsnState ∧
    corruptCrsnState.get_crsn_resource = Except.error VmError.crsnDecode ∧
    get_account_sequence_number corruptCrsnReader 0 =
      Except.ok (AccountSequenceInfo.Sequential 42) :=
  ⟨rfl, rfl, rfl⟩

/-- C3 amended: a decode failure of the account state blob and a decode
failure of the account resource are propagated to the caller; a decode
failure of the windowed-nonce (CRSN) resource alone is masked by the
if-let pattern and resolution falls back to the monotonic-counter path
populated from the account resource. -/
theorem seq_resolution_error_propagation (storage : DbReader) (address : AccountAddress)
    (blob : AccountStateBlob) (e : VmError)
    (hread : storage.get_latest_account_state address = Except.ok (some blob)) :
    (AccountState.tryFromBlob blob = Except.error e →
      get_account_sequence_number storage address = Except.error e) ∧
    (∀ state, AccountState.tryFromBlob blob = Except.ok state →
      state.get_crsn_resource = Except.ok none →
      AccountResource.tryFromBlob blob = Except.error e →
      get_account_sequence_number storage address = Except.error e) ∧
    (∀ state, AccountState.tryFromBlob blob = Except.ok state →
      state.get_crsn_resource = Except.error VmError.crsnDecode →
      ∀ r, AccountResource.tryFromBlob blob = Except.ok r →
      get_account_sequence_number storage address =
        Except.ok (AccountSequenceInfo.Sequential r.sequence_number)) := by
  refine ⟨?_, ?_, ?_⟩
  · intro hdec
    simp [get_account_sequence_number, hread, hdec]
  · intro state hdec hcrsn har
    simp [get_account_sequence_number, hread, hdec, hcrsn, har]
  · intro state hdec hcrsn r har
    simp [get_account_sequence_number, hread, hdec, hcrsn, har]

/-- Witness for the amended C3: the masked branch at the concrete
corrupt-CRSN account, and the propagating branch at a concrete blob
whose bytes do not decode. -/
theorem seq_resolution_error_propagation_witness :
    get_account_sequence_number corruptCrsnReader 0 =
      Except.ok (AccountSequenceInfo.Sequential 42) :=
  (seq_resolution_error_propagation corruptCrsnReader 0 corruptCrsnBlob
      VmError.storage rfl).2.2 corruptCrsnState rfl rfl
    { sequence_number := 42 } rfl

/-- C4: sequence resolution returns Sequential 0 when the reader has no
state for the address; the CRSN variant copied field-for-field from a
decodable CRSN resource when one is carried (the stored counter is not
consulted); and otherwise the Sequential variant populated from the
stored account resource counter. -/
theorem seq_resolution_cases (storage : DbReader) (address : AccountAddress) :
    (storage.get_latest_account_state address = Except.ok none →
      get_account_sequence_number storage address =
        Except.ok (AccountSequenceInfo.Sequential 0)) ∧
    (∀ blob state crsn,
      storage.get_latest_account_state address = Except.ok (some blob) →
      AccountState.tryFromBlob blob = Except.ok state →
      state.get_crsn_resource = Except.ok (some crsn) →
      get_account_sequence_number storage address =
        Except.ok (AccountSequenceInfo.CRSN crsn.min_nonce crsn.size)) ∧
    (∀ blob state r,
      storage.get_latest_account_state address = Except.ok (some blob) →
      AccountState.tryFromBlob blob = Except.ok state →
      state.get_crsn_resource = Except.ok none →
      AccountResource.tryFromBlob blob = Except.ok r →
      get_account_sequence_number storage address =
        Except.ok (AccountSequenceInfo.Sequential r.sequence_number)) := by
  refine ⟨?_, ?_, ?_⟩
  · intro hread
    simp [get_account_sequence_number, hread]
  · intro blob state crsn hread hdec hcrsn
    simp [get_account_sequence_number, hread, hdec, hcrsn]
  · intro blob state r hread hdec hcrsn har
    simp [get_account_sequence_number, hread, hdec, hcrsn, har]

/-- Witness for C4: the three scenarios of the spec at concrete
readers: an absent account, an account with counter 42 and CRSN
resource of minimum nonce 10 and window 8, and an account with counter
42 only. -/
theorem seq_resolution_cases_witness :
    get_account_sequence_number emptyAccountReader 0 =
      Except.ok (AccountSequenceInfo.Sequential 0) ∧
    get_account_sequence_number crsnReader 0 =
      Except.ok (AccountSequenceInfo.CRSN 10 8) ∧
    get_account_sequence_number seqReader 0 =
      Except.ok (AccountSequenceInfo.Sequential 42) :=
  ⟨(seq_resolution_cases emptyAccountReader 0).1 rfl,
   (seq_resolution_cases crsnReader 0).2.1 (AccountStateBlob.fromState crsnState)
     crsnState { min_nonce := 10, size := 8 } rfl rfl rfl,
   (seq_resolution_cases seqReader 0).2.2 (AccountStateBlob.fromState seqState)
     seqState { sequence_number := 42 } rfl rfl rfl rfl⟩

/-- C5: a violation of any structural chunk invariant, index
arithmetic, strict key ordering, or a boundary-key mismatch, makes
chunk verification fail with MalformedChunk for every checkpoint,
version and range proof, so no cryptographic comparison can have been
consulted. -/
theorem chunk_malformed_before_crypto (c : AccountStatesChunkWithProof)
    (li : LedgerInfo) (version : Nat)
    (h : (c.last_index : Int) - (c.first_index : Int) + 1 ≠ (c.account_blobs.length : Int) ∨
         strictAscending (c.account_blobs.map Prod.fst) = false ∨
         c.account_blobs.head?.map Prod.fst ≠ some c.first_key ∨
         c.account_blobs.getLast?.map Prod.fst ≠ some c.last_key) :
    c.verify li version = Except.error AuthError.malformedChunk := by
  cases hw : chunkWellFormed c with
  | false => simp [AccountStatesChunkWithProof.verify, hw]
  | true =>
    exfalso
    simp only [chunkWellFormed, Bool.and_eq_true, beq_iff_eq] at hw
    obtain ⟨⟨⟨ha, hb⟩, hc⟩, hd⟩ := hw
    rcases h with h | h | h | h
    · exact h hd
    · rw [ha] at h
      exact Bool.noConfusion h
    · exact h hb
    · exact h hc

/-- Witness for C5 at two concrete chunks whose index arithmetic is
violated: boundary indices spanning more positions than there are
entries, and inverted boundary indices whose integer difference is
negative. -/
theorem chunk_malformed_before_crypto_witness :
    (badChunk.last_index : Int) - (badChunk.first_index : Int) + 1 ≠
      (badChunk.account_blobs.length : Int) ∧
    badChunk.verify { version := 0, rootHash := 0 } 0 =
      Except.error AuthError.malformedChunk ∧
    (invertedChunk.last_index : Int) - (invertedChunk.first_index : Int) + 1 ≠
      (invertedChunk.account_blobs.length : Int) ∧
    invertedChunk.verify { version := 0, rootHash := 0 } 0 =
      Except.error AuthError.malformedChunk :=
  ⟨by decide,
   chunk_malformed_before_crypto badChunk { version := 0, rootHash := 0 } 0
     (Or.inl (by decide)),
   by decide,
   chunk_malformed_before_crypto invertedChunk { version := 0, rootHash := 0 } 0
     (Or.inl (by decide))⟩

/-- Counterexample to C6 as stated: at a concrete reader whose
tree-state read fails, the failure is not returned to the caller of
latest_state_view or VMValidator::new; both abort through the expect
call, and the outcome is not the propagated storage error. -/
theorem storage_failure_panics :
    latest_state_view failingReader = RunResult.panicked PanicMsg.shouldNotFail ∧
    VMValidator.new failingReader = RunResult.panicked PanicMsg.shouldNotFail ∧
    latest_state_view failingReader ≠ RunResult.err VmError.storage :=
  ⟨rfl, rfl, by decide⟩

/-- C6 amended: a storage reader failure during cache construction or
refresh is not returned: latest_state_view, and with it
VMValidator::new and notify_commit, aborts with the expect message
Should not fail., after exactly one read attempt; a failure of the
ledger-view construction step aborts the same way. -/
theorem storage_failure_abort (db : DbReader) (e : VmError) :
    (db.get_latest_tree_state = Except.error e →
      latest_state_view db = RunResult.panicked PanicMsg.shouldNotFail ∧
      VMValidator.new db = RunResult.panicked PanicMsg.shouldNotFail ∧
      ∀ v : VMValidator, v.db_reader = db →
        v.notify_commit = RunResult.panicked PanicMsg.shouldNotFail) ∧
    (∀ ts, db.get_latest_tree_state = Except.ok ts →
      db.into_ledger_view ts = Except.error e →
      latest_state_view db = RunResult.panicked PanicMsg.shouldNotFail) := by
  constructor
  · intro hts
    have hsv : latest_state_view db = RunResult.panicked PanicMsg.shouldNotFail := by
      simp [latest_state_view, hts]
    refine ⟨hsv, ?_, ?_⟩
    · simp [VMValidator.new, hsv]
    · intro v hv
      simp [VMValidator.notify_commit, hv, hsv]
  · intro ts hts hlv
    simp [latest_state_view, hts, hlv]

/-- Witness for the amended C6: the tree-state failure at failingReader
propagating into construction and refresh, and the ledger-view failure
at failingLedgerViewReader. -/
theorem storage_failure_abort_witness :
    latest_state_view failingReader = RunResult.panicked PanicMsg.shouldNotFail ∧
    VMValidator.new failingReader = RunResult.panicked PanicMsg.shouldNotFail ∧
    failingValidator.notify_commit = RunResult.panicked PanicMsg.shouldNotFail ∧
    latest_state_view failingLedgerViewReader = RunResult.panicked PanicMsg.shouldNotFail := by
  obtain ⟨h1, h2, h3⟩ := (storage_failure_abort failingReader VmError.storage).1 rfl
  exact ⟨h1, h2, h3 failingValidator rfl,
    (storage_failure_abort failingLedgerViewReader VmError.storage).2
      { version := 0, rootHash := 0 } rfl rfl⟩

/-- C7: notify_commit replaces the cached view with the one rebuilt
from the reader, keeping reader handle and VM; restart performs that
same refresh and then replaces the VM oracle with one built from the
configuration version, VM parameters and publishing policy. -/
theorem commit_and_restart_refresh (v : VMValidator) (config : OnChainConfigPayload)
    (sv : VerifiedStateView) (vmCfg version publishing : Nat)
    (hsv : latest_state_view v.db_reader = RunResult.ok sv)
    (hc : config.vmCfg = some vmCfg)
    (hv : config.aptosVersion = some version)
    (hp : config.publishingPolicy = some publishing) :
    v.notify_commit = RunResult.ok { v with cached_state_view := sv } ∧
    v.restart config = RunResult.ok
      { db_reader := v.db_reader
        cached_state_view := sv
        vm := AptosVM.init_with_config version vmCfg publishing } := by
  constructor
  · simp [VMValidator.notify_commit, hsv]
  · simp [VMValidator.restart, VMValidator.notify_commit, hsv, hc, hv, hp]

/-- Witness for C7 at a healthy reader and a fully populated
configuration payload. -/
theorem commit_and_restart_refresh_witness :
    goodValidator.notify_commit =
      RunResult.ok { goodValidator with cached_state_view := goodView } ∧
    goodValidator.restart goodConfig = RunResult.ok
      { db_reader := goodReader
        cached_state_view := goodView
        vm := AptosVM.init_with_config 3 2 4 } :=
  commit_and_restart_refresh goodValidator goodConfig goodView 2 3 4 rfl rfl rfl rfl

/-- C8: cloning is a fresh construction against the same reader: the
clone equals VMValidator::new on the reader handle, its cached view and
VM are rebuilt from the reader alone, and any two validators over the
same reader clone identically whatever cached state they hold. -/
theorem clone_is_fresh_construct (v : VMValidator) :
    v.clone = VMValidator.new v.db_reader ∧
    (∀ sv, latest_state_view v.db_reader = RunResult.ok sv →
      v.clone = RunResult.ok
        { db_reader := v.db_reader
          cached_state_view := sv
          vm := AptosVM.new_for_validation sv }) ∧
    (∀ w : VMValidator, w.db_reader = v.db_reader → w.clone = v.clone) := by
  refine ⟨rfl, ?_, ?_⟩
  · intro sv hsv
    simp [VMValidator.clone, VMValidator.new, hsv]
  · intro w hw
    simp [VMValidator.clone, hw]

/-- Witness for C8: the fresh validator and a validator with a stale
cached view and VM over the same reader produce the same clone. -/
theorem clone_is_fresh_construct_witness :
    goodValidator.clone = RunResult.ok goodValidator ∧
    staleValidator.clone = goodValidator.clone :=
  ⟨(clone_is_fresh_construct goodValidator).2.1 goodView rfl,
   (clone_is_fresh_construct goodValidator).2.2 staleValidator rfl⟩
